import Mathlib

/-!
Shallow embedding of the AIT-Fly booking backend (src/backend/main.py,
src/backend/models.py).  Times are naive-UTC timestamps in whole seconds
(`Nat`); durations such as the 10-minute hold TTL become `600` seconds.
Monetary values (`Float` in the source) are modelled as `ℚ`; none of the
verified properties depends on floating-point rounding.  Random artefacts
(`secrets.token_hex`, `secrets.randbelow`) are modelled as caller-supplied
nonces.  Each HTTP handler becomes a pure function from a database snapshot
to a result (`Except err ok`) together with the database after the handler's
commits; an `HTTPException` raise is an `.error` outcome.
-/

namespace AITFly

inductive SeatStatus
  | AVAILABLE
  | HELD
  | BOOKED
deriving DecidableEq, Repr

inductive BookingStatus
  | CREATED
  | CONFIRMED
  | CANCELLED
deriving DecidableEq, Repr

inductive PaymentStatus
  | PENDING
  | PAID
  | FAILED
deriving DecidableEq, Repr

/-- Flight status; the source enum's `LANDED` alias has the same value as
`ARRIVED`, so it collapses to the single `ARRIVED` constructor. -/
inductive FlightStatus
  | SCHEDULED
  | BOARDING
  | DEPARTED
  | ARRIVED
  | DELAYED
  | CANCELLED
deriving DecidableEq, Repr

inductive PaymentMethod
  | CARD
  | APPLE_PAY
  | GOOGLE_PAY
deriving DecidableEq, Repr

inductive SeatCategory
  | STANDARD
  | EXTRA_LEGROOM
deriving DecidableEq, Repr

structure Flight where
  id : Nat
  base_price : ℚ
  status : FlightStatus
  departure_time : Nat
  gate : Option String := none
deriving DecidableEq, Repr

structure Seat where
  id : Nat
  flight_id : Nat
  seat_class : String := "ECONOMY"
  seat_category : SeatCategory := SeatCategory.STANDARD
  price_multiplier : ℚ
  status : SeatStatus
  hold_expires_at : Option Nat
deriving DecidableEq, Repr

structure Booking where
  id : Nat
  user_id : Nat
  flight_id : Nat
  seat_id : Nat
  booking_reference : String
  total_price : ℚ
  status : BookingStatus
  created_at : Nat
deriving DecidableEq, Repr

structure Payment where
  id : Nat
  booking_id : Nat
  amount : ℚ
  method : PaymentMethod
  status : PaymentStatus
  transaction_id : Option Nat
deriving DecidableEq, Repr

structure Ticket where
  booking_id : Nat
  ticket_number : Nat
deriving DecidableEq, Repr

structure CheckInRec where
  booking_id : Nat
  boarding_gate : String
  boarding_time : Int
deriving DecidableEq, Repr

/-- The database snapshot: one list per table.  `profiles` records the user
ids that have a completed `PassengerProfile` row. -/
structure DB where
  flights : List Flight
  seats : List Seat
  bookings : List Booking
  payments : List Payment
  tickets : List Ticket
  check_ins : List CheckInRec
  profiles : List Nat
deriving DecidableEq, Repr

/-! ### Row lookup and update helpers (SQL `filter(...).first()` / row mutation) -/

/-- Lookup `db.query(Seat).filter(Seat.id == sid, Seat.flight_id == fid).first()`. -/
def seatRow (db : DB) (fid sid : Nat) : Option Seat :=
  db.seats.find? fun s => decide (s.id = sid ∧ s.flight_id = fid)

/-- Lookup for the `booking.seat` relationship (by primary key). -/
def seatRowById (db : DB) (sid : Nat) : Option Seat :=
  db.seats.find? fun s => decide (s.id = sid)

def flightRow (db : DB) (fid : Nat) : Option Flight :=
  db.flights.find? fun f => decide (f.id = fid)

def bookingRow (db : DB) (bid : Nat) : Option Booking :=
  db.bookings.find? fun b => decide (b.id = bid)

/-- Lookup `db.query(Payment).filter(Payment.booking_id == bid).first()`. -/
def paymentRow (db : DB) (bid : Nat) : Option Payment :=
  db.payments.find? fun p => decide (p.booking_id = bid)

def ticketRow (db : DB) (bid : Nat) : Option Ticket :=
  db.tickets.find? fun t => decide (t.booking_id = bid)

def checkInRow (db : DB) (bid : Nat) : Option CheckInRec :=
  db.check_ins.find? fun c => decide (c.booking_id = bid)

/-- Mutating a fetched ORM row = rewriting the row with that primary key. -/
def updateSeatRows (l : List Seat) (sid : Nat) (f : Seat → Seat) : List Seat :=
  l.map fun s => if s.id = sid then f s else s

def updateBookingRows (l : List Booking) (bid : Nat) (f : Booking → Booking) :
    List Booking :=
  l.map fun b => if b.id = bid then f b else b

def updatePaymentRows (l : List Payment) (pid : Nat) (f : Payment → Payment) :
    List Payment :=
  l.map fun p => if p.id = pid then f p else p

/-- Python truthiness of `seat.hold_expires_at and seat.hold_expires_at < now`. -/
def holdExpired (now : Nat) (seat : Seat) : Bool :=
  match seat.hold_expires_at with
  | some e => decide (e < now)
  | none => false

/-! ### `hold_seat` (main.py 1087–1125) -/

inductive HoldErr
  | SeatNotFound
  | SeatUnavailable
deriving DecidableEq, Repr

/-- Handler for `POST /flights/{fid}/seats/{sid}/hold`.  Returns the hold expiry on
success.  Mirrors the source exactly: any seat whose status is not
`AVAILABLE` is rejected before the expired-hold check is reached, and an
AVAILABLE seat is re-marked `HELD` with expiry `now + 600`. -/
def hold_seat (db : DB) (now : Nat) (fid sid : Nat) :
    Except HoldErr Nat × DB :=
  match seatRow db fid sid with
  | none => (.error .SeatNotFound, db)
  | some seat =>
    if seat.status ≠ SeatStatus.AVAILABLE then
      (.error .SeatUnavailable, db)
    else
      -- the source's expired-hold clearing, then the unconditional re-hold;
      -- both writes land on the same row before the single commit
      let seat1 :=
        if holdExpired now seat then
          { seat with status := SeatStatus.AVAILABLE, hold_expires_at := none }
        else seat
      let seat2 :=
        { seat1 with status := SeatStatus.HELD, hold_expires_at := some (now + 600) }
      (.ok (now + 600),
        { db with seats := updateSeatRows db.seats sid fun _ => seat2 })

/-! ### `release_seat` (main.py 1179–1230) -/

inductive ReleaseErr
  | SeatNotFound
  | ConflictingBooking
  | BookedSeat
deriving DecidableEq, Repr

inductive ReleaseOk
  | released
  | alreadyAvailable
deriving DecidableEq, Repr

/-- Handler for `DELETE /flights/{fid}/seats/{sid}/hold`.  The blocking-booking query
filters on `seat_id == sid`, `user_id == current_user.id` and
`status == CREATED`: only the *caller's own* CREATED booking blocks. -/
def release_seat (db : DB) (uid : Nat) (fid sid : Nat) :
    Except ReleaseErr ReleaseOk × DB :=
  match seatRow db fid sid with
  | none => (.error .SeatNotFound, db)
  | some seat =>
    if seat.status = SeatStatus.HELD then
      match db.bookings.find? (fun b =>
          decide (b.seat_id = sid ∧ b.user_id = uid ∧
                  b.status = BookingStatus.CREATED)) with
      | some _ => (.error .ConflictingBooking, db)
      | none =>
        (.ok .released,
          { db with seats := updateSeatRows db.seats sid fun s =>
              { s with status := SeatStatus.AVAILABLE, hold_expires_at := none } })
    else if seat.status = SeatStatus.BOOKED then
      (.error .BookedSeat, db)
    else
      (.ok .alreadyAvailable, db)

/-! ### `get_flight_seats` (main.py 1022–1084) -/

/-- One entry of the seat-map response (id, resolved status, computed price). -/
structure SeatView where
  id : Nat
  status : SeatStatus
  price : ℚ
deriving DecidableEq, Repr

/-- The per-seat lazy-resolution step of the listing loop: an expired hold,
or an unexpired/unbounded hold with no CREATED booking for the seat (an
orphaned hold), is released to AVAILABLE. -/
def resolveHeldSeat (bookings : List Booking) (now : Nat) (seat : Seat) : Seat :=
  if seat.status = SeatStatus.HELD then
    if holdExpired now seat then
      { seat with status := SeatStatus.AVAILABLE, hold_expires_at := none }
    else if (bookings.find? (fun b =>
        decide (b.seat_id = seat.id ∧ b.status = BookingStatus.CREATED))).isNone then
      { seat with status := SeatStatus.AVAILABLE, hold_expires_at := none }
    else seat
  else seat

/-- The listing loop's mutation pass: every seat of the flight goes through
`resolveHeldSeat`; other flights' seats are untouched. -/
def resolveFlightSeats (db : DB) (now fid : Nat) : List Seat :=
  db.seats.map fun s =>
    if s.flight_id = fid then resolveHeldSeat db.bookings now s else s

/-- The response rows built from the (already resolved) seats of the flight. -/
def seatViews (fl : Flight) (seats : List Seat) (fid : Nat) : List SeatView :=
  (seats.filter fun s => decide (s.flight_id = fid)).map fun s =>
    { id := s.id, status := s.status,
      price := fl.base_price * s.price_multiplier }

/-- Handler for `GET /flights/{fid}/seats`: resolves holds on the flight's seats, commits,
and reports each seat with `price = flight.base_price * seat.price_multiplier`. -/
def get_flight_seats (db : DB) (now : Nat) (fid : Nat) :
    Option (List SeatView) × DB :=
  match flightRow db fid with
  | none => (none, db)
  | some flight =>
    (some (seatViews flight (resolveFlightSeats db now fid) fid),
     { db with seats := resolveFlightSeats db now fid })

/-! ### `update_seat` (main.py 1128–1176, staff-only) -/

structure SeatUpdate where
  seat_class : Option String := none
  seat_category : Option SeatCategory := none
  price_multiplier : Option ℚ := none
deriving DecidableEq, Repr

inductive UpdateSeatErr
  | SeatNotFound
deriving DecidableEq, Repr

/-- Handler for `PATCH /staff/flights/{fid}/seats/{sid}`: applies whichever of the three
optional fields are present and commits.  It never touches the bookings
table, so a booking's frozen `total_price` is unaffected. -/
def update_seat (db : DB) (fid sid : Nat) (upd : SeatUpdate) :
    Except UpdateSeatErr SeatView × DB :=
  match seatRow db fid sid with
  | none => (.error .SeatNotFound, db)
  | some seat =>
    let seat' := { seat with
      seat_class := Option.getD ( SeatUpdate.seat_class upd) ( Seat.seat_class seat),
      seat_category := upd.seat_category.getD seat.seat_category,
      price_multiplier := upd.price_multiplier.getD seat.price_multiplier }
    let db' := { db with seats := updateSeatRows db.seats sid fun _ => seat' }
    let price :=
      match flightRow db fid with
      | some fl => fl.base_price * seat'.price_multiplier
      | none => 0
    (.ok { id := seat'.id, status := seat'.status, price := price }, db')

/-! ### `create_booking` (main.py 1235–1459) -/

/-- Inline passenger data of `BookingCreate`; a field is "provided" when it
is a non-empty value (Python truthiness of the Pydantic optional). -/
structure PassengerInput where
  first_name : Option String := none
  last_name : Option String := none
  phone : Option String := none
  passport_number : Option String := none
  nationality : Option String := none
  date_of_birth : Option Nat := none
deriving DecidableEq, Repr

def strProvided : Option String → Bool
  | some s => !s.isEmpty
  | none => false

def pdFlags (pd : PassengerInput) : List Bool :=
  [strProvided pd.first_name, strProvided pd.last_name, strProvided pd.phone,
   strProvided pd.passport_number, strProvided pd.nationality,
   pd.date_of_birth.isSome]

/-- Python `any([...])` over the six optional passenger fields. -/
def hasPassengerData (pd : PassengerInput) : Bool := (pdFlags pd).any id

/-- Python `all(required_fields)` over the same six fields. -/
def allPassengerData (pd : PassengerInput) : Bool := (pdFlags pd).all id

inductive BookErr
  | ProfileRequired
  | IncompletePassengerData
  | FlightNotFound
  | FlightCancelled
  | FlightDeparted
  | FlightArrived
  | SeatNotFound
  | SeatAlreadyBooked
  | DuplicatePendingBooking
  | AlreadyConfirmedBooking
  | SeatHeldByOther
  | SeatTakenByOther
deriving DecidableEq, Repr

/-- The existing-booking block of `create_booking` (main.py 1330–1370):
looks up ANY booking referencing the seat; the caller's own CREATED /
CONFIRMED booking and another user's CREATED / CONFIRMED booking are
conflicts, while a CANCELLED booking (either owner) is purged so the
unique `seat_id` constraint admits the new row. -/
def bookingConflictCheck (db : DB) (uid sid : Nat) : Except BookErr DB :=
  match db.bookings.find? (fun b => decide (b.seat_id = sid)) with
  | none => .ok db
  | some eb =>
    if eb.user_id = uid then
      match eb.status with
      | .CREATED => .error .DuplicatePendingBooking
      | .CONFIRMED => .error .AlreadyConfirmedBooking
      | .CANCELLED =>
        .ok { db with bookings := db.bookings.filter fun b => decide (b.id ≠ eb.id) }
    else
      match eb.status with
      | .CREATED => .error .SeatHeldByOther
      | .CONFIRMED => .error .SeatTakenByOther
      | .CANCELLED =>
        .ok { db with bookings := db.bookings.filter fun b => decide (b.id ≠ eb.id) }

/-- Handler for `POST /bookings`.  `newId` models the autoincrement id and `ref` the
generated PNR.  On success the booking is persisted with status CREATED,
`total_price = flight.base_price * seat.price_multiplier`, and the seat is
(re-)held for 600 seconds.  The source's intermediate release of an expired
hold is overwritten by that same re-hold before the single commit. -/
def create_booking (db : DB) (now uid fid sid : Nat) (pd : PassengerInput)
    (newId : Nat) (ref : String) : Except BookErr Booking × DB :=
  if ¬hasPassengerData pd ∧ ¬(db.profiles.find? fun u => decide (u = uid)).isSome then
    (.error .ProfileRequired, db)
  else if hasPassengerData pd ∧ ¬allPassengerData pd then
    (.error .IncompletePassengerData, db)
  else
    match flightRow db fid with
    | none => (.error .FlightNotFound, db)
    | some flight =>
      if flight.status = FlightStatus.CANCELLED then (.error .FlightCancelled, db)
      else if flight.status = FlightStatus.DEPARTED then (.error .FlightDeparted, db)
      else if flight.status = FlightStatus.ARRIVED then (.error .FlightArrived, db)
      else
        match seatRow db fid sid with
        | none => (.error .SeatNotFound, db)
        | some seat =>
          if seat.status = SeatStatus.BOOKED then (.error .SeatAlreadyBooked, db)
          else
            match bookingConflictCheck db uid sid with
            | .error e => (.error e, db)
            | .ok db1 =>
              let newB : Booking :=
                { id := newId, user_id := uid, flight_id := fid, seat_id := sid,
                  booking_reference := ref,
                  total_price := flight.base_price * seat.price_multiplier,
                  status := BookingStatus.CREATED, created_at := now }
              (.ok newB,
                { db1 with
                  bookings := newB :: db1.bookings,
                  seats := updateSeatRows db1.seats sid fun s =>
                    { s with status := SeatStatus.HELD,
                             hold_expires_at := some (now + 600) } })

/-! ### `create_payment` (main.py 1683–1790) -/

inductive PayErr
  | BookingNotFound
  | NotAuthorized
  | BookingExpired
  | InternalError
deriving DecidableEq, Repr

/-- Handler for `POST /payments`.  `txn`, `newPid`, `newTicketNo` model the generated
transaction id, payment id and ticket number.  The expiry branch commits the
cancellation before raising; both payment-processing branches promote the
booking to CONFIRMED and the seat to BOOKED atomically with the PAID write;
the fresh-payment branch creates a ticket unconditionally, the retry branch
only if none exists.  `InternalError` models the `booking.seat` relationship
dereference failing (unreachable in a well-formed database). -/
def create_payment (db : DB) (now uid bid : Nat) (method : PaymentMethod)
    (txn newPid newTicketNo : Nat) : Except PayErr Payment × DB :=
  match bookingRow db bid with
  | none => (.error .BookingNotFound, db)
  | some booking =>
    if booking.user_id ≠ uid then (.error .NotAuthorized, db)
    else if booking.status = BookingStatus.CREATED ∧ booking.created_at + 600 < now then
      match seatRowById db booking.seat_id with
      | none => (.error .InternalError, db)
      | some _ =>
        (.error .BookingExpired,
          { db with
            bookings := updateBookingRows db.bookings bid fun b =>
              { b with status := BookingStatus.CANCELLED },
            seats := updateSeatRows db.seats booking.seat_id fun s =>
              { s with status := SeatStatus.AVAILABLE, hold_expires_at := none } })
    else
      match paymentRow db bid with
      | some ep =>
        if ep.status = PaymentStatus.PAID then (.ok ep, db)
        else
          match seatRowById db booking.seat_id with
          | none => (.error .InternalError, db)
          | some _ =>
            let ep' := { ep with
              status := PaymentStatus.PAID,
              transaction_id := some txn }
            let db1 := { db with
              payments := updatePaymentRows db.payments ep.id fun _ => ep',
              bookings := updateBookingRows db.bookings bid fun b =>
                { b with status := BookingStatus.CONFIRMED },
              seats := updateSeatRows db.seats booking.seat_id fun s =>
                { s with status := SeatStatus.BOOKED, hold_expires_at := none } }
            let db2 :=
              if (ticketRow db1 bid).isNone then
                { db1 with tickets :=
                    { booking_id := bid, ticket_number := newTicketNo } :: db1.tickets }
              else db1
            (.ok ep', db2)
      | none =>
        match seatRowById db booking.seat_id with
        | none => (.error .InternalError, db)
        | some _ =>
          let np : Payment :=
            { id := newPid, booking_id := bid, amount := booking.total_price,
              method := method, status := PaymentStatus.PAID,
              transaction_id := some txn }
          (.ok np,
            { db with
              payments := np :: db.payments,
              bookings := updateBookingRows db.bookings bid fun b =>
                { b with status := BookingStatus.CONFIRMED },
              seats := updateSeatRows db.seats booking.seat_id fun s =>
                { s with status := SeatStatus.BOOKED, hold_expires_at := none },
              tickets := { booking_id := bid, ticket_number := newTicketNo } :: db.tickets })

/-! ### `check_in` (main.py 1795–1930) -/

inductive CheckInErr
  | BookingNotFound
  | NotAuthorized
  | PaymentNotFound
  | PaymentNotPaid
  | CheckInClosed (hoursRemaining : ℚ)
  | CheckInTooEarly (hoursRemaining : ℚ)
  | InternalError
deriving DecidableEq, Repr

/-- The "Temporary fix" timezone heuristic (main.py 1881–1890): when the
computed hours-until-departure lies strictly between 24 and 30, the first
offset from [6, 5, 7, 4, 8] whose subtraction lands in (1, 24] is applied. -/
def tzAdjust (hours : ℚ) : List ℚ → ℚ
  | [] => hours
  | o :: rest =>
    if 1 < hours - o ∧ hours - o ≤ 24 then hours - o else tzAdjust hours rest

def applyTzCorrection (hours : ℚ) : ℚ :=
  if 24 < hours ∧ hours < 30 then tzAdjust hours [6, 5, 7, 4, 8] else hours

/-- Boarding-gate formatting: the flight's gate if truthy (prefixed with
"Gate " unless it already starts with it), else a random default gate. -/
def formatGate (gate : Option String) (gateNonce : Nat) : String :=
  let g0 : String :=
    match gate with
    | some g => if g.isEmpty then "Gate " ++ toString (gateNonce % 50 + 1) else g
    | none => "Gate " ++ toString (gateNonce % 50 + 1)
  if g0.startsWith "Gate" then g0 else "Gate " ++ g0

/-- Handler for `POST /check-in`.  A PENDING/FAILED payment is auto-promoted to PAID
(committed even if the window check then rejects); the window admits exactly
`1 < hours_until_departure ≤ 24` — after the timezone heuristic has possibly
rewritten the hours; a second check-in returns the existing record. -/
def check_in (db : DB) (now uid bid : Nat) (txn newTicketNo gateNonce : Nat) :
    Except CheckInErr CheckInRec × DB :=
  match bookingRow db bid with
  | none => (.error .BookingNotFound, db)
  | some booking =>
    if booking.user_id ≠ uid then (.error .NotAuthorized, db)
    else
      match paymentRow db bid with
      | none => (.error .PaymentNotFound, db)
      | some payment =>
        let db1 :=
          if payment.status = PaymentStatus.PENDING ∨
             payment.status = PaymentStatus.FAILED then
            let p' := { payment with
              status := PaymentStatus.PAID,
              transaction_id :=
                if payment.transaction_id.isNone then some txn
                else payment.transaction_id }
            let dbp := { db with
              payments := updatePaymentRows db.payments payment.id fun _ => p' }
            if (ticketRow dbp bid).isNone then
              { dbp with tickets :=
                  { booking_id := bid, ticket_number := newTicketNo } :: dbp.tickets }
            else dbp
          else db
        match flightRow db1 booking.flight_id with
        | none => (.error .InternalError, db1)
        | some flight =>
          let diffSecs : Int := (flight.departure_time : Int) - (now : Int)
          let hours : ℚ := applyTzCorrection ((diffSecs : ℚ) / 3600)
          if hours ≤ 1 then (.error (.CheckInClosed hours), db1)
          else if 24 < hours then (.error (.CheckInTooEarly hours), db1)
          else
            match checkInRow db1 bid with
            | some ci => (.ok ci, db1)
            | none =>
              let ci : CheckInRec :=
                { booking_id := bid,
                  boarding_gate := formatGate flight.gate gateNonce,
                  boarding_time := (flight.departure_time : Int) - 1800 }
              (.ok ci, { db1 with check_ins := ci :: db1.check_ins })

/-! ## General lemmas about row lookup and update -/

instance {ε α : Type} [DecidableEq ε] [DecidableEq α] : DecidableEq (Except ε α) :=
  fun x y =>
  match x, y with
  | .error a, .error b =>
    if h : a = b then isTrue (by rw [h])
    else isFalse (by intro hc; cases hc; exact h rfl)
  | .error _, .ok _ => isFalse (by intro hc; cases hc)
  | .ok _, .error _ => isFalse (by intro hc; cases hc)
  | .ok a, .ok b =>
    if h : a = b then isTrue (by rw [h])
    else isFalse (by intro hc; cases hc; exact h rfl)

/-- A map that does not change which rows match commutes with `find?`. -/
theorem find?_map_pres {α : Type} (p : α → Bool) (g : α → α)
    (hg : ∀ a, p (g a) = p a) :
    ∀ l : List α, (l.map g).find? p = (l.find? p).map g := by
  intro l
  induction l with
  | nil => rfl
  | cons a t ih =>
    by_cases h : p a = true
    · rw [List.map_cons, List.find?_cons_of_pos _ ((hg a).trans h),
        List.find?_cons_of_pos _ h, Option.map_some']
    · rw [List.map_cons, List.find?_cons_of_neg _ (by simp [hg a, h]),
        List.find?_cons_of_neg _ (by simp [h]), ih]

/-- Looking up a booking after rewriting the row with that id, for an update
that keeps the id. -/
theorem bookingRow_update (db : DB) (bid : Nat) (f : Booking → Booking) (b : Booking)
    (hf : ∀ x, (f x).id = x.id)
    (hb : bookingRow db bid = some b) :
    bookingRow { db with bookings := updateBookingRows db.bookings bid f } bid =
      some (f b) := by
  have hb' : List.find? (fun x => decide (x.id = bid)) db.bookings = some b := hb
  have hid : b.id = bid := by simpa using List.find?_some hb'
  have hpres : ∀ a : Booking,
      (fun x => decide (x.id = bid)) (if a.id = bid then f a else a) =
        (fun x => decide (x.id = bid)) a := by
    intro a
    by_cases h : a.id = bid
    · simp [h, hf a]
    · simp [h]
  show (updateBookingRows db.bookings bid f).find? (fun x => decide (x.id = bid)) =
    some (f b)
  unfold updateBookingRows
  rw [find?_map_pres _ _ hpres db.bookings, hb']
  simp [hid]

/-- Looking up a seat by primary key after rewriting the row with that id,
for an update that keeps the id. -/
theorem seatRowById_update (db : DB) (sid : Nat) (f : Seat → Seat) (s : Seat)
    (hf : ∀ x, (f x).id = x.id)
    (hs : seatRowById db sid = some s) :
    seatRowById { db with seats := updateSeatRows db.seats sid f } sid =
      some (f s) := by
  have hs' : List.find? (fun x => decide (x.id = sid)) db.seats = some s := hs
  have hid : s.id = sid := by simpa using List.find?_some hs'
  have hpres : ∀ a : Seat,
      (fun x => decide (x.id = sid)) (if a.id = sid then f a else a) =
        (fun x => decide (x.id = sid)) a := by
    intro a
    by_cases h : a.id = sid
    · simp [h, hf a]
    · simp [h]
  show (updateSeatRows db.seats sid f).find? (fun x => decide (x.id = sid)) =
    some (f s)
  unfold updateSeatRows
  rw [find?_map_pres _ _ hpres db.seats, hs']
  simp [hid]

/-- Replacing the unique payment row found for a booking with a new record
for the same booking: the follow-up lookup returns the new record.  Needs
primary-key uniqueness of payment ids, because the rewrite is keyed on the
id of the found row. -/
theorem paymentRow_update_self (bid : Nat) (ep ep' : Payment)
    (hb' : ep'.booking_id = bid) :
    ∀ l : List Payment, l.Pairwise (fun a b => a.id ≠ b.id) →
      l.find? (fun q => decide (q.booking_id = bid)) = some ep →
      (updatePaymentRows l ep.id fun _ => ep').find?
        (fun q => decide (q.booking_id = bid)) = some ep' := by
  intro l
  induction l with
  | nil => intro _ h; cases h
  | cons a t ih =>
    intro hpair hfind
    rcases List.pairwise_cons.mp hpair with ⟨hhead, htail⟩
    by_cases h : a.booking_id = bid
    · rw [List.find?_cons_of_pos _ (by simpa using h)] at hfind
      injection hfind with hax
      subst hax
      show ((if a.id = a.id then ep' else a) :: _).find? _ = some ep'
      rw [if_pos rfl]
      exact List.find?_cons_of_pos _ (by simpa using hb')
    · rw [List.find?_cons_of_neg _ (by simpa using h)] at hfind
      have hmem : ep ∈ t := List.mem_of_find?_eq_some hfind
      have hne : a.id ≠ ep.id := hhead ep hmem
      show ((if a.id = ep.id then ep' else a) :: _).find? _ = some ep'
      rw [if_neg hne, List.find?_cons_of_neg _ (by simpa using h)]
      exact ih htail hfind

/-- A pointwise-idempotent map is idempotent on lists. -/
theorem map_idem_of_pointwise {α : Type} (g : α → α) (h : ∀ a, g (g a) = g a) :
    ∀ l : List α, (l.map g).map g = l.map g := by
  intro l
  induction l with
  | nil => rfl
  | cons a t ih => simp only [List.map_cons, h a, ih]

/-! ## C1 — check-in window boundaries (main.py 1852–1905)

The claim's 24h / 1h / 1h+1s boundaries match the code, but at exactly
25 hours before departure the "Temporary fix" timezone heuristic rewrites
the computed 25 hours to 19 and the check-in is ACCEPTED, where the claim
(and the handler's own docstring, "Allowed from 24 hours to 1 hour before
departure") requires a too-early rejection. -/

def C1flight (dep : Nat) : Flight :=
  { id := 1, base_price := 100, status := FlightStatus.SCHEDULED,
    departure_time := dep, gate := some "Gate 3" }

def C1booking : Booking :=
  { id := 1, user_id := 1, flight_id := 1, seat_id := 1,
    booking_reference := "R1", total_price := 100,
    status := BookingStatus.CONFIRMED, created_at := 0 }

def C1payment : Payment :=
  { id := 1, booking_id := 1, amount := 100, method := PaymentMethod.CARD,
    status := PaymentStatus.PAID, transaction_id := some 5 }

def C1db (dep : Nat) : DB :=
  { flights := [C1flight dep],
    seats := [{ id := 1, flight_id := 1, price_multiplier := 1,
                status := SeatStatus.BOOKED, hold_expires_at := none }],
    bookings := [C1booking], payments := [C1payment],
    tickets := [{ booking_id := 1, ticket_number := 2 }],
    check_ins := [], profiles := [1] }

/-- C1: for a PAID booking, check-in at exactly 24 hours before departure
succeeds, at exactly 1 hour is rejected `CheckInClosed` reporting 1
remaining hour (boundary exclusive), at 1 hour + 1 second succeeds, and a
far-out attempt (30 hours) is rejected `CheckInTooEarly` reporting the
remaining hours — but at exactly 25 hours before departure the code
ACCEPTS the check-in (the timezone-correction heuristic rewrites 25 hours
to 19), contradicting the claimed too-early rejection.  Each call is
`check_in` at `now = 0` against a database whose flight departs at the
stated offset. -/
theorem C1_checkin_window_behavior :
    (check_in (C1db 86400) 0 1 1 7 7 7).1.isOk = true ∧
    (check_in (C1db 3600) 0 1 1 7 7 7).1 = .error (.CheckInClosed 1) ∧
    (check_in (C1db 3601) 0 1 1 7 7 7).1.isOk = true ∧
    (check_in (C1db 108000) 0 1 1 7 7 7).1 = .error (.CheckInTooEarly 30) ∧
    (check_in (C1db 90000) 0 1 1 7 7 7).1.isOk = true := by
  with_unfolding_all decide

/-! ## C2 — `hold` precondition (main.py 1087–1125)

The source rejects every seat whose status is not AVAILABLE *before* its
expired-hold check, so an expired orphaned HELD seat is NOT holdable,
contrary to the claim; the remainder of the claim (AVAILABLE succeeds with
a 10-minute expiry, failures leave the seat unchanged) holds. -/

def C2seat : Seat :=
  { id := 1, flight_id := 1, price_multiplier := 1,
    status := SeatStatus.HELD, hold_expires_at := some 100 }

def C2db : DB :=
  { flights := [C1flight 10000], seats := [C2seat], bookings := [],
    payments := [], tickets := [], check_ins := [], profiles := [1] }

/-- C2 counterexample: a seat HELD with hold expiry 100, read at `now =
1000` (hold long expired), with NO booking at all referencing it — the
claim says `hold` must succeed, but the code fails with `SeatUnavailable`
and leaves the database untouched. -/
theorem C2_counterexample :
    C2seat.status = SeatStatus.HELD ∧
    holdExpired 1000 C2seat = true ∧
    (C2db.bookings.find? fun b =>
      decide (b.seat_id = 1 ∧ b.status ≠ BookingStatus.CANCELLED)) = none ∧
    hold_seat C2db 1000 1 1 = (.error .SeatUnavailable, C2db) := by
  decide

/-- C2 (amended): `hold` succeeds iff the seat's status is AVAILABLE; on
success the seat becomes HELD with expiry `now + 600`, otherwise the call
fails with `SeatUnavailable` and the database is unchanged. -/
theorem C2_hold_amended (db : DB) (now fid sid : Nat) (seat : Seat)
    (hs : seatRow db fid sid = some seat) :
    (seat.status = SeatStatus.AVAILABLE →
      hold_seat db now fid sid =
        (.ok (now + 600),
          { db with seats := updateSeatRows db.seats sid fun _ =>
              { seat with status := SeatStatus.HELD,
                          hold_expires_at := some (now + 600) } })) ∧
    (seat.status ≠ SeatStatus.AVAILABLE →
      hold_seat db now fid sid = (.error .SeatUnavailable, db)) := by
  constructor
  · intro hav
    unfold hold_seat
    rw [hs]
    simp only [hav, ne_eq, not_true_eq_false, if_false, ite_false]
    by_cases h : holdExpired now seat = true <;> simp [h]
  · intro hnav
    unfold hold_seat
    rw [hs]
    simp [hnav]

def C2availSeat : Seat :=
  { id := 2, flight_id := 1, price_multiplier := 1,
    status := SeatStatus.AVAILABLE, hold_expires_at := none }

def C2availDB : DB :=
  { flights := [C1flight 10000], seats := [C2availSeat],
    bookings := [], payments := [], tickets := [], check_ins := [],
    profiles := [1] }

/-- C2 witness: holding the AVAILABLE seat 2 at `now = 50` succeeds and
re-marks it HELD until 650. -/
theorem C2_hold_amended_witness :
    hold_seat C2availDB 50 1 2 =
      (.ok 650,
        { C2availDB with seats := updateSeatRows C2availDB.seats 2 fun _ =>
            { C2availSeat with status := SeatStatus.HELD,
                               hold_expires_at := some 650 } }) :=
  (C2_hold_amended C2availDB 50 1 2 C2availSeat (by decide)).1 rfl

/-! ## C5 — `release` blocking condition (main.py 1179–1230)

The blocking-booking query is filtered to the CALLER's own CREATED
booking, so a CREATED booking held by a DIFFERENT user does not block the
release, contrary to the claim's "regardless of which user owns it". -/

def C5seat : Seat :=
  { id := 1, flight_id := 1, price_multiplier := 1,
    status := SeatStatus.HELD, hold_expires_at := some 100000 }

def C5booking : Booking :=
  { id := 1, user_id := 2, flight_id := 1, seat_id := 1,
    booking_reference := "R5", total_price := 100,
    status := BookingStatus.CREATED, created_at := 0 }

def C5db : DB :=
  { flights := [C1flight 10000], seats := [C5seat], bookings := [C5booking],
    payments := [], tickets := [], check_ins := [], profiles := [1, 2] }

/-- C5 counterexample: seat 1 is HELD and user 2's CREATED (non-cancelled)
booking references it, yet user 1's release call succeeds and the seat
becomes AVAILABLE with its expiry cleared — the claim requires
`ConflictingBooking` for a blocking booking regardless of its owner. -/
theorem C5_counterexample :
    C5booking.seat_id = 1 ∧
    C5booking.status ≠ BookingStatus.CANCELLED ∧
    C5booking.user_id ≠ 1 ∧
    C5seat.status = SeatStatus.HELD ∧
    (release_seat C5db 1 1 1).1 = .ok .released ∧
    seatRowById (release_seat C5db 1 1 1).2 1 =
      some { C5seat with status := SeatStatus.AVAILABLE, hold_expires_at := none } := by
  decide

/-- C5 (amended): releasing a HELD seat fails with `ConflictingBooking`
exactly when the CALLING user has a CREATED booking referencing the seat
(leaving the database unchanged); otherwise — including when another
user's booking references it — the seat is set AVAILABLE with its expiry
cleared. -/
theorem C5_release_amended (db : DB) (uid fid sid : Nat) (seat : Seat)
    (hs : seatRow db fid sid = some seat) (hheld : seat.status = SeatStatus.HELD) :
    ((db.bookings.find? fun b =>
        decide (b.seat_id = sid ∧ b.user_id = uid ∧
                b.status = BookingStatus.CREATED)).isSome →
      release_seat db uid fid sid = (.error .ConflictingBooking, db)) ∧
    ((db.bookings.find? fun b =>
        decide (b.seat_id = sid ∧ b.user_id = uid ∧
                b.status = BookingStatus.CREATED)) = none →
      release_seat db uid fid sid =
        (.ok .released,
          { db with seats := updateSeatRows db.seats sid fun s =>
              { s with status := SeatStatus.AVAILABLE,
                       hold_expires_at := none } })) := by
  constructor
  · intro hblock
    unfold release_seat
    simp only [hs]
    rw [if_pos hheld]
    rcases hfind : db.bookings.find? fun b =>
        decide (b.seat_id = sid ∧ b.user_id = uid ∧
                b.status = BookingStatus.CREATED) with _ | eb
    · rw [hfind] at hblock; cases hblock
    · rw [hfind]
  · intro hnone
    unfold release_seat
    simp only [hs]
    rw [if_pos hheld, hnone]

/-- C5 witness: user 2 (who owns the CREATED booking on seat 1) is blocked
with `ConflictingBooking`. -/
theorem C5_release_amended_witness :
    release_seat C5db 2 1 1 = (.error .ConflictingBooking, C5db) :=
  (C5_release_amended C5db 2 1 1 C5seat (by decide) rfl).1 (by decide)

/-! ## C10 — `hold` ignores the flight's status (main.py 1087–1125) -/

/-- C10: `hold_seat` performs no flight-status check — for ANY contents of
the flights table (in particular a CANCELLED, DEPARTED or ARRIVED owning
flight) holding an AVAILABLE seat succeeds with a 10-minute (600 s)
expiry. -/
theorem C10_hold_ignores_flight_status (db : DB) (now fid sid : Nat) (seat : Seat)
    (hs : seatRow db fid sid = some seat)
    (hav : seat.status = SeatStatus.AVAILABLE) :
    ∀ fls : List Flight,
      (hold_seat { db with flights := fls } now fid sid).1 = .ok (now + 600) := by
  intro fls
  have hs' : seatRow { db with flights := fls } fid sid = some seat := hs
  unfold hold_seat
  rw [hs']
  simp [hav]

def C10db : DB :=
  { flights := [],
    seats := [{ id := 1, flight_id := 1, price_multiplier := 1,
                status := SeatStatus.AVAILABLE, hold_expires_at := none }],
    bookings := [], payments := [], tickets := [], check_ins := [],
    profiles := [1] }

/-- C10 witness: the seat's flight 1 is CANCELLED, yet the hold succeeds. -/
theorem C10_witness :
    (hold_seat { C10db with
        flights := [{ id := 1, base_price := 100,
                      status := FlightStatus.CANCELLED,
                      departure_time := 10000, gate := none }] } 5 1 1).1 =
      .ok 605 :=
  C10_hold_ignores_flight_status C10db 5 1 1
    { id := 1, flight_id := 1, price_multiplier := 1,
      status := SeatStatus.AVAILABLE, hold_expires_at := none }
    (by decide) rfl
    [{ id := 1, base_price := 100, status := FlightStatus.CANCELLED,
       departure_time := 10000, gate := none }]

/-! ## C4 — booking expiry on `pay` (main.py 1709–1722) -/

/-- C4: invoking `pay` on a CREATED booking strictly more than 10 minutes
(600 s) after its creation fails with `BookingExpired`, the booking's
status becomes CANCELLED, and its seat becomes AVAILABLE with the hold
expiry cleared. -/
theorem C4_booking_expired (db : DB) (now uid bid : Nat) (m : PaymentMethod)
    (txn newPid newTick : Nat) (b : Booking) (st : Seat)
    (hb : bookingRow db bid = some b) (hu : b.user_id = uid)
    (hcr : b.status = BookingStatus.CREATED) (hexp : b.created_at + 600 < now)
    (hst : seatRowById db b.seat_id = some st) :
    create_payment db now uid bid m txn newPid newTick =
      (.error .BookingExpired,
        { db with
          bookings := updateBookingRows db.bookings bid fun x =>
            { x with status := BookingStatus.CANCELLED },
          seats := updateSeatRows db.seats b.seat_id fun s =>
            { s with status := SeatStatus.AVAILABLE, hold_expires_at := none } }) ∧
    bookingRow (create_payment db now uid bid m txn newPid newTick).2 bid =
      some { b with status := BookingStatus.CANCELLED } ∧
    seatRowById (create_payment db now uid bid m txn newPid newTick).2 b.seat_id =
      some { st with status := SeatStatus.AVAILABLE, hold_expires_at := none } := by
  have hmain : create_payment db now uid bid m txn newPid newTick =
      (.error .BookingExpired,
        { db with
          bookings := updateBookingRows db.bookings bid fun x =>
            { x with status := BookingStatus.CANCELLED },
          seats := updateSeatRows db.seats b.seat_id fun s =>
            { s with status := SeatStatus.AVAILABLE, hold_expires_at := none } }) := by
    unfold create_payment
    simp only [hb]
    rw [if_neg (by simp [hu]), if_pos ⟨hcr, hexp⟩]
    simp only [hst]
  refine ⟨hmain, ?_, ?_⟩
  · rw [hmain]
    exact bookingRow_update db bid _ b (fun _ => rfl) hb
  · rw [hmain]
    exact seatRowById_update db b.seat_id _ st (fun _ => rfl) hst

def C4booking : Booking :=
  { id := 1, user_id := 1, flight_id := 1, seat_id := 1,
    booking_reference := "R4", total_price := 100,
    status := BookingStatus.CREATED, created_at := 0 }

def C4seat : Seat :=
  { id := 1, flight_id := 1, price_multiplier := 1,
    status := SeatStatus.HELD, hold_expires_at := some 600 }

def C4db : DB :=
  { flights := [C1flight 10000], seats := [C4seat], bookings := [C4booking],
    payments := [], tickets := [], check_ins := [], profiles := [1] }

/-- C4 witness: the booking created at T = 0 and paid at T + 11 minutes
(660 s) fails `BookingExpired`, and seat 1 is observably AVAILABLE with no
expiry afterwards. -/
theorem C4_witness :
    (create_payment C4db 660 1 1 PaymentMethod.CARD 9 9 9).1 =
      .error .BookingExpired ∧
    seatRowById (create_payment C4db 660 1 1 PaymentMethod.CARD 9 9 9).2 1 =
      some { C4seat with status := SeatStatus.AVAILABLE, hold_expires_at := none } := by
  have h := C4_booking_expired C4db 660 1 1 PaymentMethod.CARD 9 9 9
    C4booking C4seat rfl rfl rfl (by decide) rfl
  exact ⟨by rw [h.1], h.2.2⟩

/-! ## C6 — lazy resolution of expired/orphaned holds on listing
(main.py 1022–1084) -/

theorem resolveHeldSeat_flight_id (bks : List Booking) (now : Nat) (s : Seat) :
    (resolveHeldSeat bks now s).flight_id = s.flight_id := by
  unfold resolveHeldSeat
  split
  · split
    · rfl
    · split
      · rfl
      · rfl
  · rfl

theorem resolveHeldSeat_cases (bks : List Booking) (now : Nat) (s : Seat) :
    resolveHeldSeat bks now s = s ∨
      (resolveHeldSeat bks now s).status = SeatStatus.AVAILABLE := by
  unfold resolveHeldSeat
  split
  · split
    · right; rfl
    · split
      · right; rfl
      · left; rfl
  · left; rfl

theorem resolveHeldSeat_of_not_held (bks : List Booking) (now : Nat) (s : Seat)
    (h : s.status ≠ SeatStatus.HELD) :
    resolveHeldSeat bks now s = s := by
  unfold resolveHeldSeat
  rw [if_neg h]

theorem resolveHeldSeat_idem (bks : List Booking) (now : Nat) (s : Seat) :
    resolveHeldSeat bks now (resolveHeldSeat bks now s) =
      resolveHeldSeat bks now s := by
  rcases resolveHeldSeat_cases bks now s with h | h
  · rw [h]
    exact h
  · exact resolveHeldSeat_of_not_held _ _ _ (by rw [h]; intro hc; cases hc)

/-- A second listing at the same instant reads back the same views and
changes nothing: the per-seat resolution is idempotent and the listing
does not touch the bookings used to detect orphans. -/
theorem get_flight_seats_stable (db : DB) (now fid : Nat) :
    get_flight_seats (get_flight_seats db now fid).2 now fid =
      get_flight_seats db now fid := by
  cases hfl : flightRow db fid with
  | none =>
    have hr : get_flight_seats db now fid = (none, db) := by
      unfold get_flight_seats
      rw [hfl]
    rw [hr]
    exact hr
  | some fl =>
    have hg : ∀ s : Seat,
        (fun s => if s.flight_id = fid then resolveHeldSeat db.bookings now s else s)
          ((fun s => if s.flight_id = fid then resolveHeldSeat db.bookings now s else s) s) =
        (fun s => if s.flight_id = fid then resolveHeldSeat db.bookings now s else s) s := by
      intro s
      by_cases h : s.flight_id = fid
      · have h2 : (resolveHeldSeat db.bookings now s).flight_id = fid := by
          rw [resolveHeldSeat_flight_id]; exact h
        simp only [h, if_true, h2, resolveHeldSeat_idem]
      · simp only [h, if_false]
    have hseats :
        resolveFlightSeats { db with seats := resolveFlightSeats db now fid } now fid =
          resolveFlightSeats db now fid := by
      show (resolveFlightSeats db now fid).map
          (fun s => if s.flight_id = fid then resolveHeldSeat db.bookings now s else s) =
        resolveFlightSeats db now fid
      unfold resolveFlightSeats
      exact map_idem_of_pointwise _ hg db.seats
    have hr : get_flight_seats db now fid =
        (some (seatViews fl (resolveFlightSeats db now fid) fid),
         { db with seats := resolveFlightSeats db now fid }) := by
      unfold get_flight_seats
      rw [hfl]
    rw [hr]
    unfold get_flight_seats
    rw [show flightRow { db with seats := resolveFlightSeats db now fid } fid =
        some fl from hfl]
    rw [hseats]

/-- C6: listing a flight's seats first lazily resolves holds — a seat HELD
with an expiry in the past is reported AVAILABLE in the response and is
stored AVAILABLE with its expiry cleared — and an immediate second read
returns exactly the same views with no further state change. -/
theorem C6_lazy_resolution (db : DB) (now fid : Nat) (fl : Flight) (s : Seat) (e : Nat)
    (hfl : flightRow db fid = some fl)
    (hs : s ∈ db.seats) (hsf : s.flight_id = fid)
    (hheld : s.status = SeatStatus.HELD)
    (he : s.hold_expires_at = some e) (hlt : e < now) :
    (∃ views, (get_flight_seats db now fid).1 = some views ∧
      ({ id := s.id, status := SeatStatus.AVAILABLE,
         price := fl.base_price * s.price_multiplier } : SeatView) ∈ views) ∧
    { s with status := SeatStatus.AVAILABLE, hold_expires_at := none } ∈
      (get_flight_seats db now fid).2.seats ∧
    get_flight_seats (get_flight_seats db now fid).2 now fid =
      get_flight_seats db now fid := by
  have hexp : holdExpired now s = true := by
    unfold holdExpired
    rw [he]
    simpa using hlt
  have hres : resolveHeldSeat db.bookings now s =
      { s with status := SeatStatus.AVAILABLE, hold_expires_at := none } := by
    unfold resolveHeldSeat
    rw [if_pos hheld, if_pos hexp]
  have happ : (if s.flight_id = fid then resolveHeldSeat db.bookings now s else s) =
      { s with status := SeatStatus.AVAILABLE, hold_expires_at := none } := by
    rw [if_pos hsf]
    exact hres
  have hmem1 : ({ s with status := SeatStatus.AVAILABLE, hold_expires_at := none } : Seat) ∈
      resolveFlightSeats db now fid := by
    unfold resolveFlightSeats
    exact List.mem_map.mpr ⟨s, hs, happ⟩
  have hview : ({ id := s.id, status := SeatStatus.AVAILABLE,
                  price := fl.base_price * s.price_multiplier } : SeatView) ∈
      seatViews fl (resolveFlightSeats db now fid) fid := by
    unfold seatViews
    refine List.mem_map.mpr
      ⟨{ s with status := SeatStatus.AVAILABLE, hold_expires_at := none }, ?_, rfl⟩
    exact List.mem_filter.mpr ⟨hmem1, decide_eq_true hsf⟩
  have hr : get_flight_seats db now fid =
      (some (seatViews fl (resolveFlightSeats db now fid) fid),
       { db with seats := resolveFlightSeats db now fid }) := by
    unfold get_flight_seats
    rw [hfl]
  refine ⟨⟨seatViews fl (resolveFlightSeats db now fid) fid, ?_, hview⟩, ?_, ?_⟩
  · rw [hr]
  · rw [hr]
    exact hmem1
  · exact get_flight_seats_stable db now fid

def C6seat : Seat :=
  { id := 1, flight_id := 1, price_multiplier := 1,
    status := SeatStatus.HELD, hold_expires_at := some 100 }

def C6db : DB :=
  { flights := [C1flight 10000], seats := [C6seat], bookings := [],
    payments := [], tickets := [], check_ins := [], profiles := [1] }

/-- C6 witness: the seat HELD until 100, listed at `now = 1000`, is
reported AVAILABLE, and the immediate second read changes nothing. -/
theorem C6_witness :
    ({ id := C6seat.id, status := SeatStatus.AVAILABLE,
       price := (C1flight 10000).base_price * C6seat.price_multiplier } : SeatView) ∈
      ((get_flight_seats C6db 1000 1).1.getD []) ∧
    get_flight_seats (get_flight_seats C6db 1000 1).2 1000 1 =
      get_flight_seats C6db 1000 1 := by
  have h := C6_lazy_resolution C6db 1000 1 (C1flight 10000) C6seat 100
    rfl (by decide) rfl rfl rfl (by decide)
  obtain ⟨⟨views, hv1, hv2⟩, _, hstab⟩ := h
  refine ⟨?_, hstab⟩
  rw [hv1]
  exact hv2

/-! ## C7 — price freeze (main.py 1128–1176 and 1380–1394) -/

/-- The staff seat-update endpoint never touches the bookings table. -/
theorem update_seat_preserves_bookings (db : DB) (fid sid : Nat) (upd : SeatUpdate) :
    (update_seat db fid sid upd).2.bookings = db.bookings := by
  unfold update_seat
  split
  · rfl
  · rfl

/-- C7: a booking's `total_price` is computed at creation as
`flight.base_price * seat.price_multiplier` and is frozen: after ANY later
staff seat update (in particular an edit of the seat's
`price_multiplier`), the stored booking row is unchanged. -/
theorem C7_price_freeze (db : DB) (now uid fid sid newId : Nat)
    (pd : PassengerInput) (ref : String) (bk : Booking) (db1 : DB)
    (fl : Flight) (st : Seat)
    (hfl : flightRow db fid = some fl) (hst : seatRow db fid sid = some st)
    (hcb : create_booking db now uid fid sid pd newId ref = (.ok bk, db1)) :
    bk.total_price = fl.base_price * st.price_multiplier ∧
    ∀ (fid2 sid2 : Nat) (upd : SeatUpdate),
      bookingRow (update_seat db1 fid2 sid2 upd).2 bk.id = some bk := by
  unfold create_booking at hcb
  split at hcb
  · exact absurd hcb (by simp)
  split at hcb
  · exact absurd hcb (by simp)
  split at hcb
  · rename_i heq
    rw [hfl] at heq
    cases heq
  rename_i flight heq
  rw [hfl] at heq
  injection heq with heq
  subst heq
  split at hcb
  · exact absurd hcb (by simp)
  split at hcb
  · exact absurd hcb (by simp)
  split at hcb
  · exact absurd hcb (by simp)
  split at hcb
  · rename_i heq2
    rw [hst] at heq2
    cases heq2
  rename_i seat heq2
  rw [hst] at heq2
  injection heq2 with heq2
  subst heq2
  split at hcb
  · exact absurd hcb (by simp)
  split at hcb
  · exact absurd hcb (by simp)
  rename_i db2 hconf
  simp only [Prod.mk.injEq, Except.ok.injEq] at hcb
  obtain ⟨hbk, hdb1⟩ := hcb
  subst hbk
  subst hdb1
  refine ⟨rfl, ?_⟩
  intro fid2 sid2 upd
  show ((update_seat _ fid2 sid2 upd).2).bookings.find? _ = _
  rw [update_seat_preserves_bookings]
  exact List.find?_cons_of_pos _ (by simp)

def C7booking : Booking :=
  { id := 7, user_id := 1, flight_id := 1, seat_id := 2,
    booking_reference := "R7", total_price := 100 * 1,
    status := BookingStatus.CREATED, created_at := 50 }

def C7db1 : DB := (create_booking C2availDB 50 1 1 2 {} 7 "R7").2

/-- C7 witness: the booking created over seat 2 (base price 100, multiplier
1) carries the frozen price, and after the staff raises the seat's
multiplier to 5 the stored booking row is unchanged. -/
theorem C7_witness :
    C7booking.total_price = (C1flight 10000).base_price * C2availSeat.price_multiplier ∧
    bookingRow (update_seat C7db1 1 2 { price_multiplier := some 5 }).2 7 =
      some C7booking := by
  have h := C7_price_freeze C2availDB 50 1 1 2 7 {} "R7" C7booking C7db1
    (C1flight 10000) C2availSeat rfl rfl rfl
  exact ⟨h.1, h.2 1 2 { price_multiplier := some 5 }⟩

/-! ## C9 — at most one booking row per seat
(models.py 213–220: `seat_id = Column(..., unique=True)`; main.py 1330–1370) -/

/-- The bookings table's UNIQUE constraint on `seat_id`, as a state
invariant: no two booking rows (of any status) reference the same seat. -/
def SeatRefUnique (db : DB) : Prop :=
  db.bookings.Pairwise fun a b => a.seat_id ≠ b.seat_id

theorem seatRefUnique_updateBookingRows (l : List Booking) (bid : Nat)
    (f : Booking → Booking) (hf : ∀ b, (f b).seat_id = b.seat_id)
    (h : l.Pairwise fun a b => a.seat_id ≠ b.seat_id) :
    (updateBookingRows l bid f).Pairwise fun a b => a.seat_id ≠ b.seat_id := by
  unfold updateBookingRows
  refine List.Pairwise.map _ ?_ h
  intro a b hab
  by_cases ha : a.id = bid <;> by_cases hb : b.id = bid <;>
    simp [ha, hb, hf, hab]

/-- When the conflict-resolution block lets a booking proceed, the purged
table still satisfies the invariant and no remaining row references the
contested seat. -/
theorem bookingConflictCheck_ok (db : DB) (uid sid : Nat) (db1 : DB)
    (h : SeatRefUnique db)
    (hok : bookingConflictCheck db uid sid = .ok db1) :
    SeatRefUnique db1 ∧ ∀ x ∈ db1.bookings, x.seat_id ≠ sid := by
  unfold bookingConflictCheck at hok
  cases hfind : db.bookings.find? (fun b => decide (b.seat_id = sid)) with
  | none =>
    rw [hfind] at hok
    injection hok with hok
    subst hok
    refine ⟨h, ?_⟩
    intro x hx
    have := List.find?_eq_none.mp hfind x hx
    simpa using this
  | some eb =>
    rw [hfind] at hok
    have hseat : eb.seat_id = sid := by simpa using List.find?_some hfind
    have hmem : eb ∈ db.bookings := List.mem_of_find?_eq_some hfind
    have hsym : Symmetric fun a b : Booking => a.seat_id ≠ b.seat_id :=
      fun _ _ hab => Ne.symm hab
    have hfilter : SeatRefUnique
        { db with bookings := db.bookings.filter fun b => decide (b.id ≠ eb.id) } ∧
        ∀ x ∈ db.bookings.filter fun b => decide (b.id ≠ eb.id), x.seat_id ≠ sid := by
      constructor
      · exact List.Pairwise.filter _ h
      · intro x hx
        rcases List.mem_filter.mp hx with ⟨hxmem, hxid⟩
        have hxne : x ≠ eb := by
          intro hEq
          subst hEq
          simp at hxid
        have hne := (List.Pairwise.forall hsym h) hxmem hmem hxne
        rw [hseat] at hne
        exact hne
    split at hok
    · rename_i heq
      cases heq
    rename_i eb2 heq
    injection heq with heq
    subst heq
    split at hok
    · rcases hstatus : eb.status with _ | _ | _ <;> rw [hstatus] at hok
      · exact absurd hok (by simp)
      · exact absurd hok (by simp)
      · injection hok with hok
        subst hok
        exact hfilter
    · rcases hstatus : eb.status with _ | _ | _ <;> rw [hstatus] at hok
      · exact absurd hok (by simp)
      · exact absurd hok (by simp)
      · injection hok with hok
        subst hok
        exact hfilter

theorem hold_seat_bookings (db : DB) (now fid sid : Nat) :
    (hold_seat db now fid sid).2.bookings = db.bookings := by
  unfold hold_seat
  repeat' split
  all_goals rfl

theorem release_seat_bookings (db : DB) (uid fid sid : Nat) :
    (release_seat db uid fid sid).2.bookings = db.bookings := by
  unfold release_seat
  repeat' split
  all_goals rfl

theorem get_flight_seats_bookings (db : DB) (now fid : Nat) :
    (get_flight_seats db now fid).2.bookings = db.bookings := by
  unfold get_flight_seats
  repeat' split
  all_goals rfl

theorem check_in_bookings (db : DB) (now uid bid txn newTicketNo gateNonce : Nat) :
    (check_in db now uid bid txn newTicketNo gateNonce).2.bookings = db.bookings := by
  simp only [check_in]
  repeat' split
  all_goals rfl

theorem create_booking_seatRefUnique (db : DB) (h : SeatRefUnique db)
    (now uid fid sid : Nat) (pd : PassengerInput) (newId : Nat) (ref : String) :
    SeatRefUnique (create_booking db now uid fid sid pd newId ref).2 := by
  unfold create_booking
  split
  · exact h
  split
  · exact h
  split
  · exact h
  split
  · exact h
  split
  · exact h
  split
  · exact h
  split
  · exact h
  split
  · exact h
  split
  · exact h
  rename_i db2 hconf
  have hc := bookingConflictCheck_ok db uid sid db2 h hconf
  show List.Pairwise _ (_ :: db2.bookings)
  refine List.pairwise_cons.mpr ⟨?_, hc.1⟩
  intro b hb hEq
  exact hc.2 b hb hEq.symm

theorem create_payment_seatRefUnique (db : DB) (h : SeatRefUnique db)
    (now uid bid : Nat) (m : PaymentMethod) (txn newPid newTicketNo : Nat) :
    SeatRefUnique (create_payment db now uid bid m txn newPid newTicketNo).2 := by
  simp only [create_payment]
  repeat' split
  all_goals
    first
      | exact h
      | exact seatRefUnique_updateBookingRows db.bookings bid
          (fun b => { b with status := BookingStatus.CANCELLED }) (fun _ => rfl) h
      | exact seatRefUnique_updateBookingRows db.bookings bid
          (fun b => { b with status := BookingStatus.CONFIRMED }) (fun _ => rfl) h

/-- C9: if no two booking rows reference the same seat, this still holds
after any of the modelled operations; `create_booking` in particular
deletes the seat's stale CANCELLED booking before inserting the new row,
so its insert never collides with the UNIQUE constraint on `seat_id`. -/
theorem C9_seat_uniqueness_preserved (db : DB) (h : SeatRefUnique db) :
    (∀ now uid fid sid pd newId ref,
      SeatRefUnique (create_booking db now uid fid sid pd newId ref).2) ∧
    (∀ now uid bid m txn newPid newTicketNo,
      SeatRefUnique (create_payment db now uid bid m txn newPid newTicketNo).2) ∧
    (∀ now fid sid, SeatRefUnique (hold_seat db now fid sid).2) ∧
    (∀ uid fid sid, SeatRefUnique (release_seat db uid fid sid).2) ∧
    (∀ now fid, SeatRefUnique (get_flight_seats db now fid).2) ∧
    (∀ fid sid upd, SeatRefUnique (update_seat db fid sid upd).2) ∧
    (∀ now uid bid txn newTicketNo gateNonce,
      SeatRefUnique (check_in db now uid bid txn newTicketNo gateNonce).2) := by
  refine ⟨?_, ?_, ?_, ?_, ?_, ?_, ?_⟩
  · intro now uid fid sid pd newId ref
    exact create_booking_seatRefUnique db h now uid fid sid pd newId ref
  · intro now uid bid m txn newPid newTicketNo
    exact create_payment_seatRefUnique db h now uid bid m txn newPid newTicketNo
  · intro now fid sid
    show (hold_seat db now fid sid).2.bookings.Pairwise _
    rw [hold_seat_bookings]
    exact h
  · intro uid fid sid
    show (release_seat db uid fid sid).2.bookings.Pairwise _
    rw [release_seat_bookings]
    exact h
  · intro now fid
    show (get_flight_seats db now fid).2.bookings.Pairwise _
    rw [get_flight_seats_bookings]
    exact h
  · intro fid sid upd
    show (update_seat db fid sid upd).2.bookings.Pairwise _
    rw [update_seat_preserves_bookings]
    exact h
  · intro now uid bid txn newTicketNo gateNonce
    show (check_in db now uid bid txn newTicketNo gateNonce).2.bookings.Pairwise _
    rw [check_in_bookings]
    exact h

/-- C9 witness: starting from a database with one booking on seat 1, a
booking attempt on the same seat and a payment both preserve the
at-most-one-booking-per-seat invariant. -/
theorem C9_witness :
    SeatRefUnique (create_booking C5db 50 1 1 1 {} 9 "R9").2 ∧
    SeatRefUnique (create_payment C5db 50 2 1 PaymentMethod.CARD 9 9 9).2 :=
  ⟨(C9_seat_uniqueness_preserved C5db (by simp [SeatRefUnique, C5db])).1
      50 1 1 1 {} 9 "R9",
   (C9_seat_uniqueness_preserved C5db (by simp [SeatRefUnique, C5db])).2.1
      50 2 1 PaymentMethod.CARD 9 9 9⟩

/-! ## C3 — payment idempotence (main.py 1683–1790) -/

/-- A booking with a PAID payment: `pay` returns the existing record
unchanged, with no state change (the no-re-charge branch, main.py
1729–1732). -/
theorem create_payment_already_paid (db : DB) (now uid bid : Nat)
    (m : PaymentMethod) (txn newPid newTicketNo : Nat) (b : Booking) (q : Payment)
    (hb : bookingRow db bid = some b) (hu : b.user_id = uid)
    (hnc : b.status ≠ BookingStatus.CREATED)
    (hq : paymentRow db bid = some q) (hqs : q.status = PaymentStatus.PAID) :
    create_payment db now uid bid m txn newPid newTicketNo = (.ok q, db) := by
  unfold create_payment
  simp only [hb]
  rw [if_neg (by simp [hu]), if_neg (by intro hc; exact hnc hc.1)]
  simp only [hq]
  rw [if_pos hqs]

/-- C3: if the first `pay` call on a booking whose payment is not yet PAID
succeeds returning payment `p`, then `p` is PAID, the booking is CONFIRMED
in the resulting state, and a second `pay` call — at any later time, with
fresh nonces — returns the very same payment record `p` (same transaction
id) and leaves the state untouched, so the booking stays CONFIRMED.
`hpk` is the payments table's primary-key uniqueness. -/
theorem C3_payment_idempotent (db db2 : DB) (now now2 uid bid : Nat)
    (m m2 : PaymentMethod) (txn newPid newTicketNo txn2 newPid2 newTicketNo2 : Nat)
    (p : Payment)
    (hpk : db.payments.Pairwise fun a b => a.id ≠ b.id)
    (hfresh : ∀ q, paymentRow db bid = some q → q.status ≠ PaymentStatus.PAID)
    (h1 : create_payment db now uid bid m txn newPid newTicketNo = (.ok p, db2)) :
    create_payment db2 now2 uid bid m2 txn2 newPid2 newTicketNo2 = (.ok p, db2) ∧
    p.status = PaymentStatus.PAID ∧
    (bookingRow db2 bid).map Booking.status = some BookingStatus.CONFIRMED := by
  simp only [create_payment] at h1
  split at h1
  · exact absurd h1 (by simp)
  rename_i booking hbk
  split at h1
  · exact absurd h1 (by simp)
  rename_i huid
  have hueq : booking.user_id = uid := not_not.mp huid
  split at h1
  · split at h1 <;> exact absurd h1 (by simp)
  rename_i hexp
  split at h1
  · -- an existing payment is retried
    rename_i ep hpay
    have hepbid : ep.booking_id = bid := by simpa using List.find?_some hpay
    split at h1
    · rename_i hPAID
      exact absurd hPAID (hfresh ep hpay)
    rename_i hnPAID
    split at h1
    · exact absurd h1 (by simp)
    rename_i st hseat
    split at h1 <;>
    · simp only [Prod.mk.injEq, Except.ok.injEq] at h1
      obtain ⟨hp, hdb⟩ := h1
      subst hp
      have hbk2 : bookingRow db2 bid =
          some { booking with status := BookingStatus.CONFIRMED } := by
        rw [← hdb]
        exact bookingRow_update db bid
          (fun b => { b with status := BookingStatus.CONFIRMED }) booking
          (fun _ => rfl) hbk
      have hpay2 : paymentRow db2 bid =
          some { ep with status := PaymentStatus.PAID, transaction_id := some txn } := by
        rw [← hdb]
        exact paymentRow_update_self bid ep
          { ep with status := PaymentStatus.PAID, transaction_id := some txn }
          hepbid db.payments hpk hpay
      refine ⟨?_, rfl, ?_⟩
      · exact create_payment_already_paid db2 now2 uid bid m2 txn2 newPid2
          newTicketNo2 { booking with status := BookingStatus.CONFIRMED }
          { ep with status := PaymentStatus.PAID, transaction_id := some txn }
          hbk2 hueq (by intro hc; cases hc) hpay2 rfl
      · rw [hbk2]
        rfl
  · -- no payment yet: a fresh PAID payment is created
    rename_i hpay
    split at h1
    · exact absurd h1 (by simp)
    rename_i st hseat
    simp only [Prod.mk.injEq, Except.ok.injEq] at h1
    obtain ⟨hp, hdb⟩ := h1
    subst hp
    have hbk2 : bookingRow db2 bid =
        some { booking with status := BookingStatus.CONFIRMED } := by
      rw [← hdb]
      exact bookingRow_update db bid
        (fun b => { b with status := BookingStatus.CONFIRMED }) booking
        (fun _ => rfl) hbk
    have hpay2 : paymentRow db2 bid =
        some { id := newPid, booking_id := bid, amount := booking.total_price,
               method := m, status := PaymentStatus.PAID,
               transaction_id := some txn } := by
      rw [← hdb]
      exact List.find?_cons_of_pos _ (by simp)
    refine ⟨?_, rfl, ?_⟩
    · exact create_payment_already_paid db2 now2 uid bid m2 txn2 newPid2
        newTicketNo2 { booking with status := BookingStatus.CONFIRMED }
        { id := newPid, booking_id := bid, amount := booking.total_price,
          method := m, status := PaymentStatus.PAID, transaction_id := some txn }
        hbk2 hueq (by intro hc; cases hc) hpay2 rfl
    · rw [hbk2]
      rfl

def C3booking : Booking :=
  { id := 1, user_id := 1, flight_id := 1, seat_id := 1,
    booking_reference := "R3", total_price := 100,
    status := BookingStatus.CREATED, created_at := 0 }

def C3db : DB :=
  { flights := [C1flight 10000], seats := [C4seat], bookings := [C3booking],
    payments := [], tickets := [], check_ins := [], profiles := [1] }

def C3payment : Payment :=
  { id := 11, booking_id := 1, amount := 100, method := PaymentMethod.CARD,
    status := PaymentStatus.PAID, transaction_id := some 9 }

def C3db2 : DB := (create_payment C3db 100 1 1 PaymentMethod.CARD 9 11 12).2

/-- C3 witness: paying booking 1 at `now = 100` and then again at
`now = 200` with different nonces returns the same payment (transaction
id 9) both times, with no state change, and the booking is CONFIRMED. -/
theorem C3_witness :
    create_payment C3db2 200 1 1 PaymentMethod.CARD 99 111 112 =
      (.ok C3payment, C3db2) ∧
    (bookingRow C3db2 1).map Booking.status = some BookingStatus.CONFIRMED := by
  have h := C3_payment_idempotent C3db C3db2 100 200 1 1 PaymentMethod.CARD
    PaymentMethod.CARD 9 11 12 99 111 112 C3payment List.Pairwise.nil
    (fun q hq => by simp [paymentRow, C3db] at hq) rfl
  exact ⟨h.1, h.2.2⟩

end AITFly
